import Mathlib

/-!
# Verification of the conversational voice-agent orchestration engine

Shallow embedding of the per-session turn processor of
`backend/agent` (Router, Verification Gate, Flow Executor, graph edge
function, tool dispatcher) and of the account-store tools in
`backend/tools.py` / `backend/agent/tools_registry.py`, together with
theorems settling the specification claims about them.

String operations mirror the Python primitives used by the source
(`str.lower`, `str.strip`, `str.split`, substring membership `in`,
and the one regex `re.search(r"Customer ID: (\w+)", ...)`).
-/

namespace VoiceAgent

/-- Python `needle in hay` (substring test), on character lists. -/
def subList (needle : List Char) : List Char → Bool
  | [] => needle.isEmpty
  | c :: rest => needle.isPrefixOf (c :: rest) || subList needle rest

/-- Python `needle in hay` for strings. -/
def containsStr (hay needle : String) : Bool :=
  subList needle.data hay.data

/-- Python `str.lower()` (ASCII case folding, as used on ASCII prompts). -/
def pyLower (s : String) : String :=
  String.mk (s.data.map Char.toLower)

/-- Python `str.strip()`: remove leading and trailing whitespace. -/
def pyStrip (s : String) : String :=
  String.mk (((s.data.dropWhile Char.isWhitespace).reverse.dropWhile
      Char.isWhitespace).reverse)

/-- Helper for `pySplit`: accumulates the current word (reversed). -/
def pySplitAux : List Char → List Char → List String
  | [], acc => if acc.isEmpty then [] else [String.mk acc.reverse]
  | c :: rest, acc =>
    if c.isWhitespace then
      if acc.isEmpty then pySplitAux rest []
      else String.mk acc.reverse :: pySplitAux rest []
    else pySplitAux rest (c :: acc)

/-- Python `str.split()`: split on whitespace, discarding empty words. -/
def pySplit (s : String) : List String :=
  pySplitAux s.data []

/-- A character matched by the regex class `\w` (ASCII word character). -/
def isWordChar (c : Char) : Bool :=
  c.isAlphanum || c = '_'

/-- `re.search(r"Customer ID: (\w+)", content)` from
`VerificationGate.__call__` (`backend/agent/nodes.py`): scan for the
leftmost occurrence of `"Customer ID: "` followed by at least one word
character and return the maximal word that follows, else `none`. -/
def findCustomerId : List Char → Option String
  | [] => none
  | c :: rest =>
    let pat := "Customer ID: ".data
    if pat.isPrefixOf (c :: rest) then
      let w := ((c :: rest).drop pat.length).takeWhile isWordChar
      if w.isEmpty then findCustomerId rest else some (String.mk w)
    else findCustomerId rest

/-- A tool-call request attached to an assistant message: name, argument
map, correlation id (`tc['name']` etc. in the Python dicts). -/
structure ToolCall where
  name : String
  args : List (String × String)
  id : String
  deriving DecidableEq, Repr

/-- A transcript entry: the LangChain message variants used by the
orchestration code (`HumanMessage`, `AIMessage` with tool calls,
`ToolMessage`, `SystemMessage`). -/
inductive Msg where
  | human (content : String)
  | ai (content : String) (tool_calls : List ToolCall)
  | toolMsg (content : String)
  | system (content : String)
  deriving DecidableEq, Repr

/-- `AgentState` from `backend/agent/state.py` (the `call_id` tracing
field is omitted: no orchestration decision reads it). -/
structure AgentState where
  messages : List Msg
  customer_id : Option String
  account_number : Option String
  is_verified : Bool
  is_call_over : Bool
  active_flow : String
  deriving DecidableEq, Repr

/-- A node's return value: the partial state-update dictionary a
LangGraph node returns. `messages` is merged by appending
(`add_messages`); every other key overwrites when present. -/
structure StateUpdate where
  messages : List Msg := []
  customer_id : Option (Option String) := none
  is_verified : Option Bool := none
  is_call_over : Option Bool := none
  active_flow : Option String := none
  deriving DecidableEq, Repr

/-- LangGraph's state merge: append `messages`, overwrite the scalar
keys that the update dictionary carries. -/
def applyUpdate (st : AgentState) (u : StateUpdate) : AgentState :=
  { messages := st.messages ++ u.messages
    customer_id := u.customer_id.getD st.customer_id
    account_number := st.account_number
    is_verified := u.is_verified.getD st.is_verified
    is_call_over := u.is_call_over.getD st.is_call_over
    active_flow := u.active_flow.getD st.active_flow }

/-- One flow's entry in the `routing_flows` section of the
configuration document (only the fields the orchestration code reads). -/
structure FlowData where
  tools : List String := []
  requires_verification : Bool := false
  deriving DecidableEq, Repr

/-- The names in `TOOL_REGISTRY` (`backend/agent/tools_registry.py`). -/
def TOOL_REGISTRY_names : List String :=
  ["t_verify_identity", "t_get_balance", "t_get_transactions",
   "t_block_card", "t_check_eligibility", "t_support_ticket",
   "t_transfer_funds", "t_close_account_request", "t_end_call"]

/-- `FlowConfig` (`backend/agent/config.py`): the loaded
`routing_flows` mapping, as an association list. -/
structure FlowConfig where
  routing_flows : List (String × FlowData)
  deriving DecidableEq, Repr

namespace FlowConfig

/-- `FlowConfig._build_sensitive_flows`: flows with
`requires_verification` true. -/
def sensitive_flows (cfg : FlowConfig) : List String :=
  (cfg.routing_flows.filter (fun p => p.2.requires_verification)).map (·.1)

/-- `FlowConfig.is_sensitive_flow`. -/
def is_sensitive_flow (cfg : FlowConfig) (flow_name : String) : Bool :=
  cfg.sensitive_flows.contains flow_name

/-- `FlowConfig._build_flow_tools`: map each flow to its configured tool
names that exist in `TOOL_REGISTRY`, then add the `"general"` fallback
entry `[t_verify_identity]` when no `"general"` flow is configured. -/
def flow_tools (cfg : FlowConfig) : List (String × List String) :=
  let base := cfg.routing_flows.map (fun p =>
    (p.1, p.2.tools.filter (fun n => TOOL_REGISTRY_names.contains n)))
  if (base.map (·.1)).contains "general" then base
  else base ++ [("general", ["t_verify_identity"])]

/-- Keys of `flow_tools`: the registered flow ids the Router sanitizes
against (`self.flow_config.flow_tools.keys()`). -/
def flow_ids (cfg : FlowConfig) : List String :=
  cfg.flow_tools.map (·.1)

/-- `FlowConfig.get_tools_for_flow`: the flow's tool list (falling back
to `general`'s), always extended with `t_end_call`. -/
def get_tools_for_flow (cfg : FlowConfig) (flow_name : String) : List String :=
  let tools := match cfg.flow_tools.find? (fun p => p.1 = flow_name) with
    | some p => p.2
    | none => match cfg.flow_tools.find? (fun p => p.1 = "general") with
      | some p => p.2
      | none => []
  if tools.contains "t_end_call" then tools else tools ++ ["t_end_call"]

end FlowConfig

/-- The most recent `HumanMessage` content in a transcript
(`next((m for m in reversed(messages) if isinstance(m, HumanMessage)), None)`). -/
def lastHuman : List Msg → Option String
  | [] => none
  | m :: rest =>
    match lastHuman rest with
    | some t => some t
    | none => match m with
      | Msg.human c => some c
      | _ => none

/-- The card action words of `RouterNode._classify_by_keywords`. -/
def card_actions : List String :=
  ["block", "freeze", "deactivate", "cancel", "lost", "stolen", "decline"]

/-- The card identifier words of `RouterNode._classify_by_keywords`. -/
def card_identifiers : List String :=
  ["card", "credit card", "debit card", "atm card"]

/-- `has_card_action` in `RouterNode._classify_by_keywords`. -/
def has_card_action (text : String) : Bool :=
  card_actions.any (fun a => containsStr (pyLower text) a)

/-- `has_card_identifier` in `RouterNode._classify_by_keywords`. -/
def has_card_identifier (text : String) : Bool :=
  card_identifiers.any (fun i => containsStr (pyLower text) i)

/-- `RouterNode._classify_by_keywords` (`backend/agent/nodes.py`):
card action + card identifier, else ATM word + ATM issue word, maps to
`"card_atm_issues"`; otherwise no keyword classification. -/
def classify_by_keywords (text : String) : Option String :=
  let text_lower := pyLower text
  if has_card_action text && has_card_identifier text then
    some "card_atm_issues"
  else if containsStr text_lower "atm" &&
      (["problem", "issue", "not working", "cash", "dispens", "stuck",
        "retain"].any (fun w => containsStr text_lower w)) then
    some "card_atm_issues"
  else
    none

/-- `RouterNode._is_continuation`: short answers, account/PIN mentions,
or mostly-numeric (credential-looking) utterances keep the current flow. -/
def is_continuation (text : String) : Bool :=
  let text_lower := pyStrip (pyLower text)
  let short_match :=
    if (pySplit text_lower).length ≤ 5 then
      (["yes", "no", "yeah", "yep", "nope", "sure", "ok", "okay",
        "account", "pin", "number", "password",
        "1", "2", "3", "4", "5", "6", "7", "8", "9", "0",
        "thank", "please", "help"]).any
        (fun pat => containsStr text_lower pat)
    else false
  if short_match then true
  else if containsStr text_lower "account" || containsStr text_lower "pin" then
    true
  else
    let words := pySplit text_lower
    let number_words := words.filter (fun w => w.data.any Char.isDigit)
    decide (2 ≤ number_words.length)

/-- A Router run's outcome: the returned update dictionary plus whether
the generative classification (the LLM call of step 3) was invoked. -/
structure RouterResult where
  update : StateUpdate
  llm_invoked : Bool
  deriving DecidableEq, Repr

/-- `RouterNode.__call__` (`backend/agent/nodes.py`). The generation
service is passed in as `llm`: `Except.ok out` models a returned
classification string, `Except.error e` models the service raising
(the source wraps the `self.llm.invoke(...)` call in no handler, so an
exception propagates, which the result's `Except.error` records). -/
def routerNode (cfg : FlowConfig) (llm : Except String String)
    (st : AgentState) : Except String RouterResult :=
  let current_flow := st.active_flow
  match lastHuman st.messages with
  | none => Except.ok ⟨{ active_flow := some current_flow }, false⟩
  | some text =>
    match classify_by_keywords text with
    | some keyword_flow =>
        Except.ok ⟨{ active_flow := some keyword_flow }, false⟩
    | none =>
      if current_flow ≠ "general" && is_continuation text then
        Except.ok ⟨{ active_flow := some current_flow }, false⟩
      else
        match llm with
        | Except.error e => Except.error e
        | Except.ok out =>
          let classification := pyLower (pyStrip out)
          let c := if cfg.flow_ids.contains classification then
              classification
            else "general"
          Except.ok ⟨{ active_flow := some c }, true⟩

/-- The directive the Gate injects for unverified sensitive flows. -/
def verification_directive : String :=
  "Current Flow requires VERIFICATION. You MUST ask for Account Number and PIN if not provided. Do not perform the action until verified."

/-- The tail of `VerificationGate.__call__` after the
just-verified check: inject a verification directive for unverified
sensitive flows, otherwise no-op. -/
def verificationGateRest (cfg : FlowConfig) (st : AgentState) : StateUpdate :=
  if cfg.is_sensitive_flow st.active_flow && !st.is_verified then
    { messages := [Msg.system verification_directive] }
  else
    {}

/-- `VerificationGate.__call__` (`backend/agent/nodes.py`): when the
last transcript entry is a `ToolMessage` whose content contains
`"Identity Verified successfully"`, set `is_verified` and the
(possibly unparsable) extracted `customer_id`; otherwise fall through
to the directive-injection check. -/
def verificationGate (cfg : FlowConfig) (st : AgentState) : StateUpdate :=
  match st.messages.getLast? with
  | some (Msg.toolMsg content) =>
    if containsStr content "Identity Verified successfully" then
      { is_verified := some true,
        customer_id := some (findCustomerId content.data) }
    else
      verificationGateRest cfg st
  | _ => verificationGateRest cfg st

/-- A generation-service response as the Executor sees it: text content
plus the requested tool calls. -/
structure LLMResponse where
  content : String
  tool_calls : List ToolCall
  deriving DecidableEq, Repr

/-- The continuation heuristic inside `FlowExecutor._check_termination`:
scan the (lowered) response text for words implying the conversation is
not over. -/
def response_suggests_continuation (text_content : String) : Bool :=
  containsStr text_content "verif" ||
  containsStr text_content "check" ||
  containsStr text_content "assist" ||
  containsStr text_content "help" ||
  containsStr text_content "being" ||
  containsStr text_content "will" ||
  containsStr text_content "need" ||
  containsStr text_content "provide" ||
  containsStr text_content "account" ||
  containsStr text_content "identity"

/-- `FlowExecutor._check_termination` (`backend/agent/nodes.py`):
`is_call_over` becomes true when some requested tool call is
`t_end_call`, no other tool is present, and the response text does not
suggest continuation. -/
def check_termination (response : LLMResponse) : Bool :=
  if response.tool_calls.isEmpty then false
  else
    let other_tools_present :=
      response.tool_calls.any (fun tc => tc.name ≠ "t_end_call")
    response.tool_calls.any (fun tc =>
      tc.name = "t_end_call" &&
      !other_tools_present &&
      !response_suggests_continuation (pyLower response.content))

/-- The goodbye phrases of `FlowExecutor._filter_premature_termination`. -/
def goodbye_phrases : List String :=
  ["bye", "goodbye", "thanks", "thank you", "that\x27s all", "hang up",
   "end call", "no thanks"]

/-- `user_wants_to_end` in `FlowExecutor._filter_premature_termination`:
the most recent user utterance contains a goodbye phrase. -/
def user_wants_to_end (messages : List Msg) : Bool :=
  match lastHuman messages with
  | none => false
  | some text =>
    goodbye_phrases.any (fun phrase => containsStr (pyLower text) phrase)

/-- `FlowExecutor._filter_premature_termination`
(`backend/agent/nodes.py`): strip `t_end_call` whenever the user did not
express goodbye intent, or when other tool calls accompany it. -/
def filter_premature_termination (response : LLMResponse)
    (st : AgentState) : LLMResponse :=
  if response.tool_calls.isEmpty then response
  else if !user_wants_to_end st.messages then
    { response with tool_calls :=
        response.tool_calls.filter (fun tc => tc.name ≠ "t_end_call") }
  else
    let other_tools_present :=
      response.tool_calls.any (fun tc => tc.name ≠ "t_end_call")
    if other_tools_present then
      { response with tool_calls :=
          response.tool_calls.filter (fun tc => tc.name ≠ "t_end_call") }
    else response

/-- The post-generation half of `FlowExecutor.__call__`: given the
generation-service response, compute `is_call_over`, filter premature
termination, and return the update appending the (filtered) assistant
message. The generation call itself is the `response` parameter — the
executor places no constraint on the service's output. -/
def flowExecutorPost (response : LLMResponse) (st : AgentState) : StateUpdate :=
  let is_call_over := check_termination response
  let filtered := filter_premature_termination response st
  { messages := [Msg.ai filtered.content filtered.tool_calls],
    is_call_over := some is_call_over }

/-- The tool calls of a transcript's last message (`.tool_calls` on the
assistant message the conditional edge inspects; non-assistant messages
carry none). -/
def lastToolCalls (messages : List Msg) : List ToolCall :=
  match messages.getLast? with
  | some (Msg.ai _ tcs) => tcs
  | _ => []

/-- `AgentGraphBuilder._should_continue` (`backend/agent/graph.py`):
end when `is_call_over`, go to the tools node when the last (assistant)
message carries tool calls, else end. -/
def shouldContinue (st : AgentState) : String :=
  if st.is_call_over then "__end__"
  else if !(lastToolCalls st.messages).isEmpty then "tools"
  else "__end__"

/-- The `ToolNode`'s state update: one `ToolMessage` per executed tool
call, in call order. -/
def toolNodeUpdate (results : List String) : StateUpdate :=
  { messages := results.map Msg.toolMsg }

/-- The tool names the graph dispatches from a state: when the
conditional edge routes to the tools node, every tool call of the last
assistant message is executed; otherwise none is. -/
def dispatchedToolNames (st : AgentState) : List String :=
  if shouldContinue st = "tools" then
    (lastToolCalls st.messages).map (·.name)
  else []

/-- One Router → Gate → Executor pass of the compiled graph, ending at
the conditional edge: returns the post-executor state and the tool
names dispatched from it. `routerLLM` and `execResp` stand for the two
generation-service calls of the pass. -/
def agentTurnCycle (cfg : FlowConfig) (routerLLM : Except String String)
    (execResp : LLMResponse) (st0 : AgentState) :
    Except String (AgentState × List String) :=
  match routerNode cfg routerLLM st0 with
  | Except.error e => Except.error e
  | Except.ok r =>
    let st1 := applyUpdate st0 r.update
    let st2 := applyUpdate st1 (verificationGate cfg st1)
    let st3 := applyUpdate st2 (flowExecutorPost execResp st2)
    Except.ok (st3, dispatchedToolNames st3)

/-- The Session Loop of `websocket_endpoint`
(`backend/routes/websocket.py`), abstracted over the per-turn graph
invocation `turn`: feed each inbound utterance through `turn`; after a
turn, when `is_call_over` is set the loop breaks (the connection is
closed) and the remaining inbound messages are never processed. -/
def runSession (turn : AgentState → String → AgentState) :
    List String → AgentState → AgentState
  | [], st => st
  | x :: rest, st =>
    let st1 := turn st x
    if st1.is_call_over then st1 else runSession turn rest st1

/-- A customer record of the account store (`backend/data/customers.json`
as read by `backend/tools.py`). `card_id` is `none` when the record has
no card (Python `customer.get('card_id')` falsy). Balances are modelled
as rationals. -/
structure Customer where
  customer_id : String
  account_number : Option String
  phone : String
  pin : String
  card_id : Option String
  card_status : String
  account_balance : Rat
  deriving DecidableEq

/-- Python `str()` of a float, for the integral values these theorems
evaluate (`str(0.0) = "0.0"`). -/
def pyFloatStr (q : Rat) : String :=
  if q.den = 1 then toString q.num ++ ".0" else toString q

/-- Python `s[-4:]`: the last four characters. -/
def lastFour (s : String) : String :=
  String.mk ((s.data.reverse.take 4).reverse)

/-- `get_customer_by_id` (`backend/tools.py`). -/
def get_customer_by_id (db : List Customer) (customer_id : String) :
    Option Customer :=
  db.find? (fun cust => cust.customer_id = customer_id)

/-- `get_account_balance` (`backend/tools.py`): the matching customer's
balance, or `0.0` when no customer matches. -/
def get_account_balance (db : List Customer) (customer_id : String) : Rat :=
  match db.find? (fun cust => cust.customer_id = customer_id) with
  | some cust => cust.account_balance
  | none => 0

/-- `block_card` (`backend/tools.py`), first half: mark the first
customer holding the card as blocked; `none` when no customer holds it. -/
def blockCardScan (card_id : String) : List Customer → Option (List Customer)
  | [] => none
  | cust :: rest =>
    if cust.card_id = some card_id then
      some ({ cust with card_status := "blocked" } :: rest)
    else
      match blockCardScan card_id rest with
      | some rest' => some (cust :: rest')
      | none => none

/-- `block_card` (`backend/tools.py`): result flag plus the saved store. -/
def block_card (db : List Customer) (card_id : String) : Bool × List Customer :=
  match blockCardScan card_id db with
  | some db' => (true, db')
  | none => (false, db)

/-- `t_get_balance` (`backend/agent/tools_registry.py`): format whatever
`get_account_balance` returns as a normal balance message. -/
def t_get_balance (db : List Customer) (customer_id : String) : String :=
  "Current balance is $" ++ pyFloatStr (get_account_balance db customer_id)

/-- `t_block_card` (`backend/agent/tools_registry.py`): resolve the
customer, then the card, then block it; each absence yields a distinct
failure message. Returns the message and the (possibly updated) store. -/
def t_block_card (db : List Customer) (customer_id : String) :
    String × List Customer :=
  match get_customer_by_id db customer_id with
  | none => ("Failed to block card: Customer not found.", db)
  | some customer =>
    match customer.card_id with
    | none => ("Failed to block card: No card found for this customer.", db)
    | some card_id =>
      match block_card db card_id with
      | (true, db') =>
        ("Card ending in " ++ lastFour card_id ++
         " has been blocked successfully for security. A replacement card will be mailed within 5-7 business days.", db')
      | (false, db') =>
        ("Failed to block card. Please try again or contact support.", db')

/-- Modelled from the spec: the flow configuration document
(`backend/data/unified_configuration.json`, loaded by
`Config.load_prompts`) is not among the sources; this sample instance
follows §3, §4.2 and §8 of the specification — the card/security flow
and the account-servicing flow require verification and carry the
account-acting tools, and `general` is the unprivileged fallback. -/
def sampleConfig : FlowConfig :=
  { routing_flows :=
      [("card_atm_issues",
        { tools := ["t_verify_identity", "t_block_card", "t_get_balance",
                    "t_get_transactions"],
          requires_verification := true }),
       ("account_servicing",
        { tools := ["t_verify_identity", "t_get_balance",
                    "t_get_transactions"],
          requires_verification := true }),
       ("general",
        { tools := ["t_verify_identity"],
          requires_verification := false })] }

/-- A one-customer account store used to evaluate the tools at concrete
inputs. -/
def sampleDb : List Customer :=
  [{ customer_id := "CUST001",
     account_number := some "1001",
     phone := "0771234567",
     pin := "1234",
     card_id := some "CARD9912",
     card_status := "active",
     account_balance := 2500 }]

/-- Holds of a state-update dictionary that some graph node (Router,
Gate, Executor, tools node) can return: the four node embeddings are
the only producers of updates in the compiled graph. -/
def IsNodeUpdate (cfg : FlowConfig) (u : StateUpdate) : Prop :=
  (∃ llm st r, routerNode cfg llm st = Except.ok r ∧ u = r.update) ∨
  (∃ st, u = verificationGate cfg st) ∨
  (∃ resp st, u = flowExecutorPost resp st) ∨
  (∃ results, u = toolNodeUpdate results)

/-- A fresh session state holding one inbound user utterance, as the
Session Loop builds it before invoking the graph. -/
def initialState (utterance : String) : AgentState :=
  { messages := [Msg.human utterance]
    customer_id := none
    account_number := none
    is_verified := false
    is_call_over := false
    active_flow := "general" }

/-- A generation-service response requesting the sensitive card-block
tool, as an unconstrained service may emit at any time. -/
def blockCardResponse : LLMResponse :=
  { content := "", tool_calls := [⟨"t_block_card", [("customer_id", "Unknown")], "call_7"⟩] }

/-- A generation-service response requesting only the termination tool,
with goodbye text free of every continuation word. -/
def goodbyeOnlyResponse : LLMResponse :=
  { content := "Goodbye!", tool_calls := [⟨"t_end_call", [], "call_1"⟩] }

/-- A generation-service response bundling the termination tool with a
balance lookup. -/
def endPlusBalanceResponse : LLMResponse :=
  { content := "Here you go, goodbye!",
    tool_calls := [⟨"t_get_balance", [("customer_id", "CUST001")], "call_2"⟩,
                   ⟨"t_end_call", [], "call_3"⟩] }

/-- A session state whose most recent transcript entry is a successful
verification `ToolMessage` carrying a parsable identity handle. -/
def verifiedToolMsgState : AgentState :=
  { messages := [Msg.human "my account number is 1001 and pin 1234",
                 Msg.ai "" [⟨"t_verify_identity", [("account_number", "1001"), ("pin", "1234")], "call_4"⟩],
                 Msg.toolMsg "Identity Verified successfully. Customer ID: CUST001"]
    customer_id := none
    account_number := none
    is_verified := false
    is_call_over := false
    active_flow := "account_servicing" }

/-- A session state whose most recent transcript entry is a successful
verification `ToolMessage` from which no identity handle can be parsed. -/
def unparsableToolMsgState : AgentState :=
  { verifiedToolMsgState with
    messages := [Msg.human "my account number is 1001 and pin 1234",
                 Msg.ai "" [⟨"t_verify_identity", [("account_number", "1001"), ("pin", "1234")], "call_5"⟩],
                 Msg.toolMsg "Identity Verified successfully." ] }

/-- A session state whose most recent transcript entry is a user
utterance that speaks the verification success phrase aloud. -/
def spokenSuccessState : AgentState :=
  initialState "Identity Verified successfully. Customer ID: CUST001"

/-- The per-turn graph invocation used to instantiate the session-loop
theorem: a turn that ends the call. -/
def endingTurn : AgentState → String → AgentState :=
  fun st x =>
    { st with messages := st.messages ++ [Msg.human x], is_call_over := true }

/-! ## Helper lemmas -/

/-- The Gate's fallthrough (directive injection or no-op) never touches
`is_verified` or `customer_id`. -/
theorem verificationGateRest_fields (cfg : FlowConfig) (st : AgentState) :
    (verificationGateRest cfg st).is_verified = none ∧
    (verificationGateRest cfg st).customer_id = none := by
  unfold verificationGateRest
  split <;> exact ⟨rfl, rfl⟩

/-- Characterization of the Gate's `is_verified` output: it is `none`
except on the successful-verification `ToolMessage` path, where it is
`some true`. -/
theorem verificationGate_is_verified_char (cfg : FlowConfig) (st : AgentState) :
    (verificationGate cfg st).is_verified = none ∨
    ((verificationGate cfg st).is_verified = some true ∧
      ∃ c, st.messages.getLast? = some (Msg.toolMsg c) ∧
        containsStr c "Identity Verified successfully" = true) := by
  unfold verificationGate
  split
  case h_1 content heq =>
    split
    case isTrue hc => exact Or.inr ⟨rfl, content, heq, hc⟩
    case isFalse hc => exact Or.inl (verificationGateRest_fields cfg st).1
  case h_2 => exact Or.inl (verificationGateRest_fields cfg st).1

/-- Every successful Router run returns an update touching only
`active_flow`. -/
theorem routerNode_update_shape (cfg : FlowConfig) (llm : Except String String)
    (st : AgentState) (r : RouterResult)
    (h : routerNode cfg llm st = Except.ok r) :
    ∃ f, r.update = { active_flow := some f } := by
  unfold routerNode at h
  rcases hl : lastHuman st.messages with _ | text
  · rw [hl] at h; cases h; exact ⟨st.active_flow, rfl⟩
  · rw [hl] at h
    dsimp only at h
    rcases hk : classify_by_keywords text with _ | kf
    · rw [hk] at h
      dsimp only at h
      by_cases hc : (decide (st.active_flow ≠ "general") && is_continuation text) = true
      · rw [if_pos hc] at h; cases h; exact ⟨st.active_flow, rfl⟩
      · rw [if_neg hc] at h
        rcases llm with e | out
        · cases h
        · cases h
          exact ⟨if cfg.flow_ids.contains (pyLower (pyStrip out)) then
            pyLower (pyStrip out) else "general", rfl⟩
    · rw [hk] at h
      dsimp only at h
      cases h; exact ⟨kf, rfl⟩

/-! ## C8 -/

/-- C8: when the most recent transcript entry is a `ToolResult`
signalling successful identity verification but no identity handle can
be parsed from its text, the Verification Gate still sets `is_verified`
to true while leaving `customer_id` unset. -/
theorem gate_verifies_without_handle (cfg : FlowConfig) (st : AgentState)
    (c : String)
    (hlast : st.messages.getLast? = some (Msg.toolMsg c))
    (hsucc : containsStr c "Identity Verified successfully" = true)
    (hparse : findCustomerId c.data = none) :
    verificationGate cfg st =
      { is_verified := some true, customer_id := some none } := by
  unfold verificationGate
  rw [hlast]
  simp only [hsucc, if_true, hparse]

/-- Witness for C8 at a concrete unparsable success message. -/
theorem gate_verifies_without_handle_witness :
    unparsableToolMsgState.messages.getLast? =
        some (Msg.toolMsg "Identity Verified successfully.") ∧
    containsStr "Identity Verified successfully." "Identity Verified successfully" = true ∧
    findCustomerId "Identity Verified successfully.".data = none ∧
    verificationGate sampleConfig unparsableToolMsgState =
      { is_verified := some true, customer_id := some none } :=
  ⟨by decide, by decide, by decide,
    gate_verifies_without_handle sampleConfig unparsableToolMsgState
      "Identity Verified successfully." (by decide) (by decide) (by decide)⟩

/-! ## C10 -/

/-- C10: the Gate's success detection fires only on `ToolMessage`
entries: when the last transcript entry is a user utterance — whatever
its text — the Gate leaves `is_verified` and `customer_id` untouched. -/
theorem gate_ignores_spoken_success (cfg : FlowConfig) (st : AgentState)
    (text : String)
    (hlast : st.messages.getLast? = some (Msg.human text)) :
    (verificationGate cfg st).is_verified = none ∧
    (verificationGate cfg st).customer_id = none := by
  unfold verificationGate
  rw [hlast]
  exact verificationGateRest_fields cfg st

/-- Witness for C10: a user speaking the exact success phrase does not
become verified. -/
theorem gate_ignores_spoken_success_witness :
    spokenSuccessState.messages.getLast? =
        some (Msg.human "Identity Verified successfully. Customer ID: CUST001") ∧
    (verificationGate sampleConfig spokenSuccessState).is_verified = none ∧
    (verificationGate sampleConfig spokenSuccessState).customer_id = none :=
  ⟨by decide,
    gate_ignores_spoken_success sampleConfig spokenSuccessState
      "Identity Verified successfully. Customer ID: CUST001" (by decide)⟩

/-! ## C7 -/

/-- C7: an utterance containing a card action word together with a card
identifier is routed to `card_atm_issues` by the deterministic keyword
match, and the generation service is not invoked during that Router
call (the result holds for every service outcome `llm`, including an
unreachable service, and records `llm_invoked = false`). -/
theorem router_keyword_bypasses_llm (cfg : FlowConfig)
    (llm : Except String String) (st : AgentState) (text : String)
    (hlast : lastHuman st.messages = some text)
    (hact : has_card_action text = true)
    (hid : has_card_identifier text = true) :
    routerNode cfg llm st =
      Except.ok ⟨{ active_flow := some "card_atm_issues" }, false⟩ := by
  unfold routerNode
  rw [hlast]
  unfold classify_by_keywords
  simp only [hact, hid, Bool.and_self, if_true]

/-- Witness for C7 at the utterance "please block my card" with an
unreachable generation service. -/
theorem router_keyword_bypasses_llm_witness :
    lastHuman (initialState "please block my card").messages =
        some "please block my card" ∧
    has_card_action "please block my card" = true ∧
    has_card_identifier "please block my card" = true ∧
    routerNode sampleConfig (Except.error "generation service unreachable")
        (initialState "please block my card") =
      Except.ok ⟨{ active_flow := some "card_atm_issues" }, false⟩ :=
  ⟨by decide, by decide, by decide,
    router_keyword_bypasses_llm sampleConfig
      (Except.error "generation service unreachable")
      (initialState "please block my card") "please block my card"
      (by decide) (by decide) (by decide)⟩

/-! ## C3 -/

/-- C3: whenever the generation service bundles a `t_end_call` request
with at least one other tool call, the Executor's premature-termination
filter outputs a tool-call list free of `t_end_call`, for every session
state. -/
theorem filter_strips_bundled_end_call (resp : LLMResponse) (st : AgentState)
    (hend : ∃ tc ∈ resp.tool_calls, tc.name = "t_end_call")
    (hother : ∃ tc ∈ resp.tool_calls, tc.name ≠ "t_end_call") :
    ∀ tc ∈ (filter_premature_termination resp st).tool_calls,
      tc.name ≠ "t_end_call" := by
  intro tc htc
  unfold filter_premature_termination at htc
  split at htc
  · next hempty =>
    rcases hend with ⟨a, ha, _⟩
    rw [List.isEmpty_iff] at hempty
    rw [hempty] at ha
    cases ha
  · split at htc
    · simp only [List.mem_filter, decide_eq_true_eq] at htc
      exact htc.2
    · dsimp only at htc
      split at htc
      · simp only [List.mem_filter, decide_eq_true_eq] at htc
        exact htc.2
      · next hnone =>
        rcases hother with ⟨a, ha, hna⟩
        exact absurd (List.any_eq_true.mpr ⟨a, ha, by simpa using hna⟩) hnone

/-- Witness for C3: a balance request bundled with `t_end_call` leaves
only the balance request after filtering. -/
theorem filter_strips_bundled_end_call_witness :
    (∃ tc ∈ endPlusBalanceResponse.tool_calls, tc.name = "t_end_call") ∧
    (∃ tc ∈ endPlusBalanceResponse.tool_calls, tc.name ≠ "t_end_call") ∧
    ∀ tc ∈ (filter_premature_termination endPlusBalanceResponse
        (initialState "thanks, that is all, bye")).tool_calls,
      tc.name ≠ "t_end_call" :=
  ⟨⟨⟨"t_end_call", [], "call_3"⟩, by decide, by decide⟩,
   ⟨⟨"t_get_balance", [("customer_id", "CUST001")], "call_2"⟩, by decide, by decide⟩,
   filter_strips_bundled_end_call endPlusBalanceResponse
     (initialState "thanks, that is all, bye")
     ⟨⟨"t_end_call", [], "call_3"⟩, by decide, by decide⟩
     ⟨⟨"t_get_balance", [("customer_id", "CUST001")], "call_2"⟩, by decide, by decide⟩⟩

/-! ## C2 -/

/-- C2 counterexample: the user's most recent utterance ("hello")
contains no goodbye phrase, yet a response requesting `t_end_call`
alone with continuation-free text makes the Turn Executor set
`is_call_over` to true — the user-goodbye conjunct claimed for the
`is_call_over` decision is not checked there. -/
theorem call_over_without_user_goodbye :
    user_wants_to_end (initialState "hello").messages = false ∧
    (flowExecutorPost goodbyeOnlyResponse (initialState "hello")).is_call_over
      = some true :=
  ⟨by decide, by decide⟩

/-- C2 amended: the Turn Executor sets `is_call_over` to true exactly
when the response requests `t_end_call`, no other tool is requested,
and the response text contains no continuation word; the user-goodbye
condition plays no role in the `is_call_over` decision (it governs only
the tool-call filter). -/
theorem executor_call_over_three_conjuncts (resp : LLMResponse)
    (st : AgentState) :
    (flowExecutorPost resp st).is_call_over = some (check_termination resp) ∧
    (check_termination resp = true ↔
      resp.tool_calls ≠ [] ∧
      (∀ tc ∈ resp.tool_calls, tc.name = "t_end_call") ∧
      response_suggests_continuation (pyLower resp.content) = false) := by
  constructor
  · rfl
  · constructor
    · intro h
      unfold check_termination at h
      by_cases hemp : resp.tool_calls.isEmpty = true
      · rw [if_pos hemp] at h; cases h
      · rw [if_neg hemp] at h
        dsimp only at h
        rw [List.any_eq_true] at h
        obtain ⟨x, hx, hcond⟩ := h
        rw [Bool.and_eq_true, Bool.and_eq_true] at hcond
        obtain ⟨⟨hxname, hother⟩, hcont⟩ := hcond
        rw [Bool.not_eq_true'] at hother hcont
        refine ⟨?_, ?_, hcont⟩
        · intro hnil; rw [hnil] at hx; cases hx
        · intro tc htc
          by_contra hne
          have hany : resp.tool_calls.any
              (fun tc => decide (tc.name ≠ "t_end_call")) = true :=
            List.any_eq_true.mpr ⟨tc, htc, by simpa using hne⟩
          rw [hany] at hother; cases hother
    · rintro ⟨hne, hall, hcont⟩
      unfold check_termination
      have hemp : ¬resp.tool_calls.isEmpty = true := by
        simpa [List.isEmpty_iff] using hne
      rw [if_neg hemp]
      dsimp only
      rw [List.any_eq_true]
      obtain ⟨x, hx⟩ := List.exists_mem_of_ne_nil resp.tool_calls hne
      have hother : resp.tool_calls.any
          (fun tc => decide (tc.name ≠ "t_end_call")) = false := by
        rw [List.any_eq_false]
        intro tc htc
        simpa using hall tc htc
      refine ⟨x, hx, ?_⟩
      simp only [hother, hcont, Bool.not_false, Bool.and_true,
        decide_eq_true_eq]
      exact hall x hx

/-! ## C5 -/

/-- C5 counterexample: a Router invocation that reaches step 3 while
the generation service is unreachable propagates the exception to its
caller instead of degrading to `"general"` — the source wraps the
classification call in no exception handler. -/
theorem router_raises_on_service_error :
    routerNode sampleConfig (Except.error "generation service unreachable")
        (initialState "what are your branch opening hours today") =
      Except.error "generation service unreachable" := rfl

/-- C5 amended: whenever the generation service returns (any string,
however malformed), the Router never raises, and if the generative
classification was invoked and its sanitized output matches no
registered flow id, the assigned flow is `"general"`; an exception
raised by the service, however, propagates to the Router's caller. -/
theorem router_sanitizes_malformed_output (cfg : FlowConfig)
    (st : AgentState) (out : String)
    (hmal : cfg.flow_ids.contains (pyLower (pyStrip out)) = false) :
    ∃ r, routerNode cfg (Except.ok out) st = Except.ok r ∧
      (r.llm_invoked = true → r.update.active_flow = some "general") := by
  unfold routerNode
  rcases hl : lastHuman st.messages with _ | text
  · exact ⟨_, rfl, fun hfalse => by cases hfalse⟩
  · dsimp only
    rcases hk : classify_by_keywords text with _ | kf
    · dsimp only
      by_cases hc : (decide (st.active_flow ≠ "general") && is_continuation text) = true
      · rw [if_pos hc]
        exact ⟨_, rfl, fun hfalse => by cases hfalse⟩
      · rw [if_neg hc]
        refine ⟨_, rfl, fun _ => ?_⟩
        dsimp only
        rw [hmal]
        simp
    · exact ⟨_, rfl, fun hfalse => by cases hfalse⟩

/-- Witness for C5's amended claim: the malformed classification output
"pizza_flow" is coerced to `"general"` without an exception. -/
theorem router_sanitizes_malformed_output_witness :
    sampleConfig.flow_ids.contains (pyLower (pyStrip "pizza_flow")) = false ∧
    ∃ r, routerNode sampleConfig (Except.ok "pizza_flow")
          (initialState "what are your branch opening hours today") =
        Except.ok r ∧
      (r.llm_invoked = true → r.update.active_flow = some "general") :=
  ⟨by decide,
    router_sanitizes_malformed_output sampleConfig
      (initialState "what are your branch opening hours today")
      "pizza_flow" (by decide)⟩

/-! ## C9 -/

/-- C9: once a turn leaves `is_call_over` true, the Session Loop
processes none of the remaining inbound messages (the websocket loop
breaks and the state is final), and the graph's conditional edge routes
such a state to the end state, dispatching no tools. Stated for every
per-turn graph invocation `turn`. -/
theorem call_over_stops_session (turn : AgentState → String → AgentState)
    (st : AgentState) (x : String) (rest : List String)
    (hover : (turn st x).is_call_over = true) :
    runSession turn (x :: rest) st = turn st x ∧
    shouldContinue (turn st x) = "__end__" ∧
    dispatchedToolNames (turn st x) = [] := by
  refine ⟨?_, ?_, ?_⟩
  · unfold runSession
    simp [hover]
  · unfold shouldContinue
    simp [hover]
  · unfold dispatchedToolNames shouldContinue
    simp [hover]

/-- Witness for C9 at a concrete ending turn with pending inbound
messages. -/
theorem call_over_stops_session_witness :
    (endingTurn (initialState "hello") "goodbye").is_call_over = true ∧
    runSession endingTurn ["goodbye", "one more thing"]
        (initialState "hello") =
      endingTurn (initialState "hello") "goodbye" ∧
    shouldContinue (endingTurn (initialState "hello") "goodbye") = "__end__" ∧
    dispatchedToolNames (endingTurn (initialState "hello") "goodbye") = [] :=
  ⟨by decide,
    call_over_stops_session endingTurn (initialState "hello") "goodbye"
      ["one more thing"] (by decide)⟩

/-! ## C4 -/

/-- C4: no node's update ever sets `is_verified` to false (so a
verified session never becomes unverified and the false→true transition
can occur at most once), and an update carrying `is_verified = true`
can only be the Verification Gate's, produced when the most recent
transcript entry is a successful-verification `ToolResult`; applying
any node update to a verified state leaves it verified. -/
theorem verified_monotone_gate_only (cfg : FlowConfig) (u : StateUpdate)
    (h : IsNodeUpdate cfg u) :
    (u.is_verified = none ∨ u.is_verified = some true) ∧
    (u.is_verified = some true →
      ∃ st0 c, u = verificationGate cfg st0 ∧
        st0.messages.getLast? = some (Msg.toolMsg c) ∧
        containsStr c "Identity Verified successfully" = true) ∧
    (∀ st : AgentState, st.is_verified = true →
      (applyUpdate st u).is_verified = true) := by
  have hv : u.is_verified = none ∨
      (u.is_verified = some true ∧
        ∃ st0 c, u = verificationGate cfg st0 ∧
          st0.messages.getLast? = some (Msg.toolMsg c) ∧
          containsStr c "Identity Verified successfully" = true) := by
    rcases h with ⟨llm, st0, r, hr, hu⟩ | ⟨st0, hu⟩ | ⟨resp, st0, hu⟩ | ⟨results, hu⟩
    · obtain ⟨f, hf⟩ := routerNode_update_shape cfg llm st0 r hr
      left
      rw [hu, hf]
    · subst hu
      rcases verificationGate_is_verified_char cfg st0 with h1 | ⟨h1, c, hc1, hc2⟩
      · exact Or.inl h1
      · exact Or.inr ⟨h1, st0, c, rfl, hc1, hc2⟩
    · subst hu; left; rfl
    · subst hu; left; rfl
  refine ⟨?_, ?_, ?_⟩
  · rcases hv with h1 | ⟨h1, _⟩
    exacts [Or.inl h1, Or.inr h1]
  · intro ht
    rcases hv with h1 | ⟨_, hrest⟩
    · rw [h1] at ht; cases ht
    · exact hrest
  · intro st hst
    show u.is_verified.getD st.is_verified = true
    rcases hv with h1 | ⟨h1, _⟩
    · rw [h1]; exact hst
    · rw [h1]; rfl

/-- Witness for C4 at the Gate's update on a state whose last entry is
a successful-verification `ToolResult`. -/
theorem verified_monotone_gate_only_witness :
    ((verificationGate sampleConfig verifiedToolMsgState).is_verified = none ∨
      (verificationGate sampleConfig verifiedToolMsgState).is_verified = some true) ∧
    ((verificationGate sampleConfig verifiedToolMsgState).is_verified = some true →
      ∃ st0 c, verificationGate sampleConfig verifiedToolMsgState =
          verificationGate sampleConfig st0 ∧
        st0.messages.getLast? = some (Msg.toolMsg c) ∧
        containsStr c "Identity Verified successfully" = true) ∧
    (∀ st : AgentState, st.is_verified = true →
      (applyUpdate st (verificationGate sampleConfig verifiedToolMsgState)).is_verified = true) :=
  verified_monotone_gate_only sampleConfig
    (verificationGate sampleConfig verifiedToolMsgState)
    (Or.inr (Or.inl ⟨verifiedToolMsgState, rfl⟩))

/-! ## C1 -/

/-- C1 failing run: in a fresh, unverified session, the utterance
"I lost my card, block it now" is routed to the sensitive
`card_atm_issues` flow, the Gate injects its directive, and when the
generation service nevertheless requests `t_block_card`, the
conditional edge dispatches it to the tools node — the dispatch path
checks `is_verified` nowhere, so the sensitive tool is dispatched while
the session is unverified. The Router's keyword match fires, so the
result is independent of the (here unreachable) generation service of
step 3. -/
theorem unverified_sensitive_tool_dispatched :
    (agentTurnCycle sampleConfig (Except.error "router llm unused")
        blockCardResponse (initialState "I lost my card, block it now")).map
        (fun p => (p.1.active_flow, p.1.is_verified, p.2)) =
      Except.ok ("card_atm_issues", false, ["t_block_card"]) ∧
    sampleConfig.is_sensitive_flow "card_atm_issues" = true := by
  exact ⟨rfl, by decide⟩

/-! ## C6 -/

/-- C6 failing evaluation: with an identity handle matching no stored
customer (the absent-handle placeholder), `t_block_card` detects the
absence and returns its distinct failure message, but `t_get_balance`
does not — it returns the ordinary balance message "Current balance is
$0.0" for the unknown identity, exactly the default-identity behavior
the claim rules out. -/
theorem missing_handle_balance_not_detected :
    get_customer_by_id sampleDb "Unknown" = none ∧
    t_get_balance sampleDb "Unknown" = "Current balance is $0.0" ∧
    (t_block_card sampleDb "Unknown").1 =
      "Failed to block card: Customer not found." :=
  ⟨by decide, by decide, by decide⟩

end VoiceAgent
